import Mathlib

/-!
# Verification of the swipe-card-lite carousel core

This development shallowly embeds the core state logic of the
`SwipeCardLite` custom element (src: `swipe-card-lite.js`):
the build pipeline (`_buildCards`), the DOM/real index translation,
the scroll/settle/jump position tracker (`_handleScroll`,
`_onScrollEnd`, `_jumpToSlide`, `_goToRealIndex`), the bidirectional
external-state synchronizer (`_syncFromStateEntity`,
`_syncToStateEntity`), configuration acceptance (`setConfig`) and the
initial-position computation in `_render`.

Card descriptions (the entries of `config.cards`) are opaque to the
widget: they are passed verbatim to the host's card factory.  We model
them by a type parameter `α`.  The factory itself
(`helpers.createCardElement`) is modelled by a function
`f : α → Option String` giving, for each description, `none` on
successful construction and `some msg` when construction throws with
message `msg`; a successfully constructed card is identified by the
description it was built from (the widget never inspects cards beyond
forwarding `hass`).  String state-entity values are modelled as
`Option ℤ`, the result of `parseInt` (`none` covers an absent entity,
an empty state string and a `NaN` parse).  Scroll offsets are exact
rationals; `Math.round` is `⌊q + 1/2⌋` (round half towards +∞), as in
JavaScript.
-/

namespace SwipeCardLite

/-- Relevant part of the widget configuration produced by `setConfig`:
the child description list and the loop mode string. -/
structure BuildConfig (α : Type) where
  cards : List α
  loop_mode : String
deriving DecidableEq, Repr

/-- Entry of the slide list built by `_buildCards`: either a card
successfully constructed from a description, or the inline
`ha-card` error placeholder carrying the failure message
(`Error: ${e.message}` in the source). -/
inductive Slide (α : Type) where
  | card (desc : α)
  | errorCard (msg : String)
deriving DecidableEq, Repr

/-- Construction of one card in the `for (const cardConfig of
this._config.cards)` loop of `_buildCards`: on factory failure the
catch block substitutes an error placeholder. -/
def mkSlide (f : α → Option String) (desc : α) : Slide α :=
  match f desc with
  | none => Slide.card desc
  | some m => Slide.errorCard m

/-- The real-card construction loop of `_buildCards` (lines 141-153):
one slide per description, in order, failures replaced by error
placeholders. -/
def buildSlides (f : α → Option String) (descs : List α) : List (Slide α) :=
  descs.map (mkSlide f)

/-- Line 160 of the source:
`this._isInfiniteMode = (loopMode === 'infinite' || loopMode === 'loopback') && this._cards.length > 1`. -/
def isInfiniteModeFor (cfg : BuildConfig α) (n : ℕ) : Bool :=
  (cfg.loop_mode == "infinite" || cfg.loop_mode == "loopback") && decide (1 < n)

/-- Committed result of a completed build: `this._cards`,
`this._allSlideCards` and `this._isInfiniteMode`. -/
structure BuildResult (α : Type) where
  cards : List (Slide α)
  allSlideCards : List (Slide α)
  isInfiniteMode : Bool
deriving DecidableEq, Repr

/-- Completion semantics of `_buildCards` (supersession aside, see
`buildCardsRun` for that): the real-card loop is try/catch guarded, but
the two clone constructions (lines 170 and 175) are not, so a factory
failure there rejects the whole async function (`Except.error`).
`cfg.cards.getLastD default` and `cfg.cards.headD default` model
`cards[cards.length - 1]` and `cards[0]`; infinite mode guarantees the
list is nonempty, so the defaults are never consulted there. -/
def buildCards [Inhabited α] (f : α → Option String) (cfg : BuildConfig α) :
    Except String (BuildResult α) :=
  let cards := buildSlides f cfg.cards
  if isInfiniteModeFor cfg cards.length then
    let lastDesc := cfg.cards.getLastD default
    let firstDesc := cfg.cards.headD default
    match f lastDesc with
    | some m => Except.error m
    | none =>
      match f firstDesc with
      | some m => Except.error m
      | none =>
        Except.ok ⟨cards, Slide.card lastDesc :: (cards ++ [Slide.card firstDesc]), true⟩
  else
    Except.ok ⟨cards, cards, false⟩

/-- Shared instance state touched by `_buildCards`. -/
structure BuildShared (α : Type) where
  buildId : ℕ
  initialized : Bool
  cards : List (Slide α)
  allSlideCards : List (Slide α)
  isInfiniteMode : Bool
  rendered : Bool
deriving DecidableEq, Repr

/-- One run of `_buildCards` with explicit suspension points.  The run
captures `thisBuildId = ++this._buildId`; `o1`, `o2`, `o3` are the
values the shared counter holds when the run resumes at its three
token checkpoints (line 138 after `_loadCardHelpers`, line 156 after
the real-card loop, line 185 after clone construction) — other builds
started during the awaits may have incremented it.  Faithful to the
source, the assignments to `this._cards` (line 141 onward),
`this._isInfiniteMode` (line 160) and `this._allSlideCards` (lines 165
and 179) are NOT individually token-guarded; a clone-construction
failure propagates out of the async function, leaving the mutations
made so far in place.  The `config`/`hass` presence guard of line 127
is outside the model (the run is only invoked with both present). -/
def buildCardsRun [Inhabited α] (f : α → Option String) (cfg : BuildConfig α)
    (s0 : BuildShared α) (o1 o2 o3 : ℕ) : BuildShared α :=
  let token := s0.buildId + 1
  if s0.initialized then { s0 with buildId := token }
  else
    let s1 : BuildShared α := { s0 with buildId := o1 }
    if token ≠ o1 then s1
    else
      let s2 : BuildShared α :=
        { s1 with cards := buildSlides f cfg.cards, buildId := o2 }
      if token ≠ o2 then s2
      else
        let infinite := isInfiniteModeFor cfg s2.cards.length
        let s3 : BuildShared α :=
          { s2 with isInfiniteMode := infinite, allSlideCards := s2.cards }
        if infinite then
          let lastDesc := cfg.cards.getLastD default
          let firstDesc := cfg.cards.headD default
          match f lastDesc with
          | some _ => { s3 with buildId := o3 }
          | none =>
            match f firstDesc with
            | some _ => { s3 with buildId := o3 }
            | none =>
              let s4 : BuildShared α :=
                { s3 with
                  allSlideCards :=
                    Slide.card lastDesc :: (s3.cards ++ [Slide.card firstDesc]),
                  buildId := o3 }
              if token ≠ o3 then s4
              else { s4 with rendered := true, initialized := true }
        else
          let s4 : BuildShared α := { s3 with buildId := o3 }
          if token ≠ o3 then s4
          else { s4 with rendered := true, initialized := true }

/-- The `config.cards` field as received by `setConfig`: absent
(undefined/null), present but not an array, or an array.  In
JavaScript an array — even an empty one — is truthy, so
`!config.cards` only fires on the first two shapes. -/
inductive CardsField (α : Type) where
  | absent
  | nonArray
  | arr (l : List α)
deriving DecidableEq, Repr

/-- Whether `setConfig` throws `'Please define cards'` (line 36:
`if (!config.cards || !Array.isArray(config.cards)) throw ...`). -/
def setConfigThrows : CardsField α → Bool
  | CardsField.absent => true
  | CardsField.nonArray => true
  | CardsField.arr _ => false

/-- JavaScript `Math.round` on an exact rational offset: round half
towards positive infinity. -/
def jsRound (q : ℚ) : ℤ := ⌊q + 1 / 2⌋

/-- Clamping of a real index to `[0, N-1]`, as written (twice) in the
source: `Math.max(0, Math.min(realIndex, this._cards.length - 1))`. -/
def clampReal (N : ℕ) (r : ℤ) : ℤ := max 0 (min r ((N : ℤ) - 1))

/-- DOM-index translation of a (clamped) real index, from
`_goToRealIndex` lines 574-577: `+ 1` for the leading clone in
infinite mode. -/
def domIndexOf (infinite : Bool) (r : ℤ) : ℤ := if infinite then r + 1 else r

/-- Real-index translation of a DOM index, from `_handleScroll` lines
451-453: subtract the clone offset in infinite mode, then clamp to
`[0, N-1]`. -/
def realIndexOf (infinite : Bool) (N : ℕ) (d : ℤ) : ℤ :=
  clampReal N (if infinite then d - 1 else d)

/-- Mutable tracker fields of the widget relevant to position:
`_realIndex`, `_currentIndex` (the DOM index), the `_jumping` flag,
whether the scroller currently has the `snap-enabled` class, and the
`_userScrolling` flag. -/
structure TrackState where
  realIndex : ℤ
  currentIndex : ℤ
  jumping : Bool
  snapEnabled : Bool
  userScrolling : Bool
deriving DecidableEq, Repr

/-- Observable side effects issued by the settle/jump path, in program
order. -/
inductive Effect where
  | disableSnap
  | setScroll (domIndex : ℤ)
  | enableSnap
  | updatePagination
  | syncToState
  | restartResetTimer
  | restartHideTimer
  | removeScrollingIndicator
  | scheduleUserScrollClear
deriving DecidableEq, Repr

/-- Post-settle side effects shared by `_onScrollEnd` (lines 510-517)
and the jump continuation in `_jumpToSlide` (lines 546-553):
pagination update, outbound state sync, then the reset timer restart
(if `enable_reset_after`) and the pagination auto-hide restart (if
`auto_hide_pagination > 0`), then removal of the `scrolling` class. -/
def postSettleEffects (cfgReset cfgHide : Bool) : List Effect :=
  [Effect.updatePagination, Effect.syncToState]
    ++ (if cfgReset then [Effect.restartResetTimer] else [])
    ++ (if cfgHide then [Effect.restartHideTimer] else [])
    ++ [Effect.removeScrollingIndicator]

/-- Number of mounted slides (`this._allSlideCards.length`) for an
initialized widget with `N` real cards: `N + 2` in infinite mode
(two clones), else `N`. -/
def seqLen (infinite : Bool) (N : ℕ) : ℤ :=
  if infinite then (N : ℤ) + 2 else (N : ℤ)

/-- The PositionState invariant of the spec: `realIndex ∈ [0, N-1]`,
`domIndex ∈ [0, len(DisplaySequence)-1]`, and
`domIndex = realIndex + (infiniteMode ? 1 : 0)`. -/
def invariantState (infinite : Bool) (N : ℕ) (s : TrackState) : Prop :=
  0 ≤ s.realIndex ∧ s.realIndex ≤ (N : ℤ) - 1 ∧
  0 ≤ s.currentIndex ∧ s.currentIndex ≤ seqLen infinite N - 1 ∧
  s.currentIndex = s.realIndex + (if infinite then 1 else 0)

/-- Embedding of `_goToRealIndex` (lines 565-594).  The incoming real
index is clamped and committed to `_realIndex` immediately; if the
slide width measures `0` the function schedules a retry and returns
without scrolling (so `_currentIndex` is not yet updated); otherwise
it requests the scroll and commits `_currentIndex = domIndex`.  The
`scrollTo` request and the pagination repaint are elided. -/
def goToRealIndex (infinite : Bool) (N : ℕ) (w : ℚ) (s : TrackState)
    (realIndex : ℤ) : TrackState :=
  let r := clampReal N realIndex
  let s1 : TrackState := { s with realIndex := r }
  let domIndex := domIndexOf infinite r
  if w = 0 then s1
  else { s1 with currentIndex := domIndex }

/-- Embedding of `_handleScroll` (lines 419-469).  Ignored while
`_jumping`; otherwise marks the user as scrolling and — inside the
rAF-throttled body, when the slide width is positive — recomputes
`domIndex = round(scrollPos / slideWidth)`, translates and clamps it
to a real index, and commits both indices when the real index
changed.  The pagination repaint and the settle-timer (re)arming are
elided. -/
def handleScroll (infinite : Bool) (N : ℕ) (w : ℚ) (s : TrackState)
    (scrollPos : ℚ) : TrackState :=
  if s.jumping then s
  else
    let s1 : TrackState := { s with userScrolling := true }
    if 0 < w then
      let domIndex := jsRound (scrollPos / w)
      let r := realIndexOf infinite N domIndex
      if r ≠ s1.realIndex then
        { s1 with realIndex := r, currentIndex := domIndex }
      else s1
    else s1

/-- Embedding of `_jumpToSlide` (lines 526-556), run to completion
through its two rAF ticks: sets `_jumping`, commits the target real
and DOM indices, disables snap, forces the scroll offset, then
re-enables snap, clears `_jumping` and runs the post-settle side
effects. -/
def jumpToSlide (cfgReset cfgHide : Bool) (s : TrackState)
    (targetDomIndex targetRealIndex : ℤ) : TrackState × List Effect :=
  let s1 : TrackState :=
    { s with
      jumping := false, snapEnabled := true,
      realIndex := targetRealIndex, currentIndex := targetDomIndex }
  (s1,
    [Effect.disableSnap, Effect.setScroll targetDomIndex, Effect.enableSnap]
      ++ postSettleEffects cfgReset cfgHide)

/-- Embedding of `_onScrollEnd` (lines 471-524).  Ignored while
`_jumping` or when the slide width measures `0`.  Computes the exact
offset in slide widths; in infinite mode, a settle within `0.1` of
DOM position `0` jumps to `(N, N-1)` and one beyond
`lastCloneIndex - 0.1` jumps to `(1, 0)`; otherwise the real index is
committed (`domIndex - 1` in infinite mode, `domIndex` else) and the
post-settle side effects run, followed by scheduling the 500 ms
clearing of `_userScrolling`. -/
def onScrollEnd (cfgReset cfgHide : Bool) (infinite : Bool) (N : ℕ)
    (w : ℚ) (s : TrackState) (scrollPos : ℚ) : TrackState × List Effect :=
  if s.jumping then (s, [])
  else if w = 0 then (s, [])
  else
    let exactIndex := scrollPos / w
    let domIndex := jsRound exactIndex
    let s1 : TrackState := { s with currentIndex := domIndex }
    if infinite then
      let lastCloneIndex : ℤ := ((N : ℤ) + 2) - 1
      if exactIndex < 1 / 10 then
        jumpToSlide cfgReset cfgHide s1 (N : ℤ) ((N : ℤ) - 1)
      else if (lastCloneIndex : ℚ) - 1 / 10 < exactIndex then
        jumpToSlide cfgReset cfgHide s1 1 0
      else
        ({ s1 with realIndex := domIndex - 1 },
          postSettleEffects cfgReset cfgHide ++ [Effect.scheduleUserScrollClear])
    else
      ({ s1 with realIndex := domIndex },
        postSettleEffects cfgReset cfgHide ++ [Effect.scheduleUserScrollClear])

/-- The naming-convention test `entity.startsWith('input_number.')`
used by both sync directions.  `String.startsWith` itself is backed by
an extern loop the kernel cannot evaluate, so the check is phrased on
the underlying character lists. -/
def isInputNumberEntity (e : String) : Bool :=
  "input_number.".data.isPrefixOf e.data

/-- The 1-based adjustment of `_syncFromStateEntity` (lines 612-615):
values of an `input_number.` binding are 1-based, every other binding
is taken as-is. -/
def parsedTarget (e : String) (v : ℤ) : ℤ :=
  if isInputNumberEntity e then v - 1 else v

/-- Mutable fields of the widget relevant to external-state sync:
`_realIndex`, `_userScrolling`, and the SyncMemo
(`_lastSyncedValue`, `_syncedAt`). -/
structure SyncState where
  realIndex : ℤ
  userScrolling : Bool
  lastSyncedValue : Option ℤ
  syncedAt : ℤ
deriving DecidableEq, Repr

/-- Embedding of `_syncFromStateEntity` (lines 598-632), returning the
real index passed to `_goToRealIndex` when the inbound update is
accepted, and `none` when it is discarded.  `newState : Option ℤ`
models `parseInt(newHass.states[entity].state)` with `none` for an
absent entity, an empty state or a `NaN` parse; `now` is
`Date.now()`. -/
def syncFromStateEntity (entity : Option String) (N : ℕ)
    (newState : Option ℤ) (now : ℤ) (s : SyncState) : Option ℤ :=
  match entity with
  | none => none
  | some e =>
    if s.userScrolling then none
    else
      match newState with
      | none => none
      | some parsed =>
        let stateValue := parsed
        let targetIndex := parsedTarget e parsed
        if targetIndex < 0 ∨ (N : ℤ) ≤ targetIndex then none
        else if targetIndex = s.realIndex then none
        else if s.lastSyncedValue = some stateValue ∧ now - s.syncedAt < 2000 then
          none
        else some targetIndex

/-- Observable side effects of the outbound sync, in program order:
recording the SyncMemo, then the `input_number/set_value` service
call. -/
inductive SyncEffect where
  | record (v : ℤ) (t : ℤ)
  | serviceCall (v : ℤ)
deriving DecidableEq, Repr

/-- Embedding of `_syncToStateEntity` (lines 634-652).  A no-op
without a binding or without `hass`, and for bindings outside the
`input_number.` naming convention; otherwise pushes
`_realIndex + 1`, skipping entirely when the parsed external value
(`extValue`) already equals the target, and recording the SyncMemo
before issuing the write. -/
def syncToStateEntity (entity : Option String) (hassPresent : Bool)
    (extValue : Option ℤ) (now : ℤ) (s : SyncState) :
    SyncState × List SyncEffect :=
  match entity with
  | none => (s, [])
  | some e =>
    if hassPresent = false then (s, [])
    else if isInputNumberEntity e then
      let targetValue := s.realIndex + 1
      if extValue = some targetValue then (s, [])
      else
        ({ s with lastSyncedValue := some targetValue, syncedAt := now },
          [SyncEffect.record targetValue now, SyncEffect.serviceCall targetValue])
    else (s, [])

/-- Initial real index computed at the top of `_render`
(lines 216-224): `Math.max(0, (start_card || 1) - 1)`, overridden by
`stateValue - 1` when a state entity is configured, present in
`hass`, and its value parses to an integer in `[1, N]`.
`stateVal : Option ℤ` models that parse (`none` also covering a
missing binding or entity). -/
def startRealIndex (start_card : ℤ) (stateVal : Option ℤ) (N : ℕ) : ℤ :=
  let base := max 0 ((if start_card = 0 then 1 else start_card) - 1)
  match stateVal with
  | none => base
  | some v => if 1 ≤ v ∧ v ≤ (N : ℤ) then v - 1 else base

/-- The DOM-index band occupied by real (non-clone) slides:
`[1, N]` in infinite mode, `[0, N-1]` otherwise.  Outside this band
the viewport is on a clone slide and a clone-jump is pending. -/
def realBand (infinite : Bool) (N : ℕ) (d : ℤ) : Prop :=
  (if infinite then 1 else 0) ≤ d ∧
    d ≤ (if infinite then (N : ℤ) else (N : ℤ) - 1)

/-! ## Theorems -/

/-- Rounding an exact integer offset returns that integer. -/
theorem jsRound_intCast (d : ℤ) : jsRound ((d : ℚ)) = d := by
  unfold jsRound
  rw [Int.floor_eq_iff]
  constructor
  · linarith
  · linarith


/-- C8: for every N ≥ 1, every mode, and every realIndex in [0, N-1],
`domIndexOf (realIndexOf (domIndexOf realIndex)) = domIndexOf realIndex`,
where `domIndexOf r = r + 1` in infinite mode and `r` otherwise, and
`realIndexOf d = d - 1` in infinite mode and `d` otherwise, clamped to
[0, N-1] — round-trip stability of the index translation. -/
theorem C8_index_roundtrip (infinite : Bool) (N : ℕ) (r : ℤ)
    (hN : 1 ≤ N) (h0 : 0 ≤ r) (h1 : r ≤ (N : ℤ) - 1) :
    domIndexOf infinite (realIndexOf infinite N (domIndexOf infinite r)) =
      domIndexOf infinite r := by
  have hN' : (1 : ℤ) ≤ (N : ℤ) := by exact_mod_cast hN
  cases infinite <;>
    simp only [domIndexOf, realIndexOf, clampReal, if_true, if_false,
      Bool.false_eq_true, add_sub_cancel_right] <;>
    omega

/-- Witness for C8 at N = 3, infinite mode, realIndex = 1. -/
theorem C8_index_roundtrip_witness :
    domIndexOf true (realIndexOf true 3 (domIndexOf true 1)) =
      domIndexOf true 1 :=
  C8_index_roundtrip true 3 1 (by norm_num) (by norm_num) (by norm_num)

/-- C9 counterexample: an empty cards array does NOT make `setConfig`
throw (an empty JavaScript array is truthy and is an array), refuting
the claim that an empty child-description list is rejected. -/
theorem C9_counterexample :
    setConfigThrows (CardsField.arr ([] : List ℕ)) = false := rfl

/-- C9 (amended): `setConfig` throws exactly when the `cards` field is
missing or not a sequence; any sequence — empty included — is
accepted. -/
theorem C9_throws_iff_not_sequence (α : Type) (cf : CardsField α) :
    setConfigThrows cf = true ↔
      cf = CardsField.absent ∨ cf = CardsField.nonArray := by
  cases cf <;> simp [setConfigThrows]

/-- Witness for C9 (amended) at a concrete non-empty sequence. -/
theorem C9_throws_iff_not_sequence_witness :
    setConfigThrows (CardsField.arr ([5] : List ℕ)) = true ↔
      CardsField.arr ([5] : List ℕ) = CardsField.absent ∨
        CardsField.arr ([5] : List ℕ) = CardsField.nonArray :=
  C9_throws_iff_not_sequence ℕ (CardsField.arr [5])

/-- C10: at initial render the starting real index is
`max 0 (start_card - 1)`, except that a bound external-state value
parsing to an integer in [1, N] overrides it with that value minus
one; out-of-range or unparsable values leave `start_card` in
charge.  (The source computes `(start_card || 1) - 1`, which agrees
with `start_card - 1` after the `max 0` clamp for every integer
`start_card`.) -/
theorem C10_initial_index (sc : ℤ) (N : ℕ) (v : ℤ) :
    (startRealIndex sc none N = max 0 (sc - 1)) ∧
    (1 ≤ v → v ≤ (N : ℤ) → startRealIndex sc (some v) N = v - 1) ∧
    (v < 1 ∨ (N : ℤ) < v → startRealIndex sc (some v) N = max 0 (sc - 1)) := by
  refine ⟨?_, ?_, ?_⟩ <;>
    simp only [startRealIndex] <;>
    split_ifs <;>
    omega

/-- Witness for C10: `start_card = 2` with bound state value `3` and
three cards starts on real index 2. -/
theorem C10_initial_index_witness :
    startRealIndex 2 (some 3) 3 = 3 - 1 :=
  (C10_initial_index 2 3 3).2.1 (by norm_num) (by norm_num)

/-- C1 counterexample: with `loop_mode: 'loopback'` — a value outside
the {none, infinite} surface enumerated by the claim — and two cards,
the build still enables infinite mode, refuting the claimed
"if and only if the loop setting is one of {none, infinite} and
requests looping". -/
theorem C1_counterexample :
    buildCards (fun _ : ℕ => (none : Option String)) ⟨[0, 1], "loopback"⟩ =
        Except.ok ⟨[Slide.card 0, Slide.card 1],
          [Slide.card 1, Slide.card 0, Slide.card 1, Slide.card 0], true⟩ ∧
      ("loopback" : String) ≠ "infinite" ∧ ("loopback" : String) ≠ "none" :=
  ⟨rfl, by decide, by decide⟩

/-- Characterization of every successfully committed build: shared by
the C1 and C7 theorems. -/
theorem buildCards_ok_spec (α : Type) [Inhabited α]
    (f : α → Option String) (cfg : BuildConfig α) (r : BuildResult α)
    (h : buildCards f cfg = Except.ok r) :
    r.isInfiniteMode = isInfiniteModeFor cfg cfg.cards.length ∧
    r.cards = buildSlides f cfg.cards ∧
    r.cards.length = cfg.cards.length ∧
    (r.isInfiniteMode = true →
      r.allSlideCards =
        Slide.card (cfg.cards.getLastD default) ::
          (r.cards ++ [Slide.card (cfg.cards.headD default)]) ∧
      r.allSlideCards.length = cfg.cards.length + 2 ∧
      1 < cfg.cards.length) := by
  have hlen : (buildSlides f cfg.cards).length = cfg.cards.length :=
    List.length_map _ _
  unfold buildCards at h
  by_cases hb : isInfiniteModeFor cfg (buildSlides f cfg.cards).length = true
  · rw [if_pos hb] at h
    have hcount : 1 < cfg.cards.length := by
      have := hb
      unfold isInfiniteModeFor at this
      rw [Bool.and_eq_true, decide_eq_true_iff] at this
      omega
    simp only [] at h
    cases hf1 : f (cfg.cards.getLastD default) with
    | some m => rw [hf1] at h; exact absurd h (by simp)
    | none =>
      rw [hf1] at h
      cases hf2 : f (cfg.cards.headD default) with
      | some m => rw [hf2] at h; exact absurd h (by simp)
      | none =>
        rw [hf2] at h
        have hr := (Except.ok.injEq _ _).mp h.symm
        subst hr
        refine ⟨by rw [hlen] at hb; exact hb.symm, rfl, hlen, fun _ => ?_⟩
        refine ⟨rfl, ?_, hcount⟩
        simp [hlen]
  · rw [if_neg hb] at h
    have hr := (Except.ok.injEq _ _).mp h.symm
    subst hr
    refine ⟨?_, rfl, hlen, by simp⟩
    rw [hlen] at hb
    simp [Bool.not_eq_true] at hb
    exact hb.symm

/-- C1 (amended): the build enables infinite mode iff the loop setting
requests looping — it is `'infinite'` or the legacy value
`'loopback'` — and the constructed real-child count exceeds 1; and
whenever infinite mode is enabled the committed display sequence is
`clone(last description) :: real slides ++ [clone(first description)]`
of length N + 2, the middle N entries being the real slides in
order. -/
theorem C1_infinite_mode_and_clones (α : Type) [Inhabited α]
    (f : α → Option String) (cfg : BuildConfig α) (r : BuildResult α)
    (h : buildCards f cfg = Except.ok r) :
    r.isInfiniteMode = isInfiniteModeFor cfg cfg.cards.length ∧
    r.cards = buildSlides f cfg.cards ∧
    r.cards.length = cfg.cards.length ∧
    (r.isInfiniteMode = true →
      r.allSlideCards =
        Slide.card (cfg.cards.getLastD default) ::
          (r.cards ++ [Slide.card (cfg.cards.headD default)]) ∧
      r.allSlideCards.length = cfg.cards.length + 2 ∧
      1 < cfg.cards.length) :=
  buildCards_ok_spec α f cfg r h

/-- Witness for C1 (amended) at the two-card configuration
`loop_mode: 'infinite'` with an always-succeeding factory. -/
theorem C1_infinite_mode_and_clones_witness :
    (⟨[Slide.card 0, Slide.card 1],
        [Slide.card 1, Slide.card 0, Slide.card 1, Slide.card 0], true⟩ :
          BuildResult ℕ).isInfiniteMode =
        isInfiniteModeFor (⟨[0, 1], "infinite"⟩ : BuildConfig ℕ) 2 ∧
      ([Slide.card 1, Slide.card 0, Slide.card 1, Slide.card 0] :
          List (Slide ℕ)).length = 2 + 2 := by
  have h := C1_infinite_mode_and_clones ℕ (fun _ => none) ⟨[0, 1], "infinite"⟩
    ⟨[Slide.card 0, Slide.card 1],
      [Slide.card 1, Slide.card 0, Slide.card 1, Slide.card 0], true⟩ rfl
  exact ⟨h.1, (h.2.2.2 rfl).2.1⟩

/-- C7 counterexample: two descriptions, the first of which always
fails to construct, with `loop_mode: 'infinite'`.  The real-card loop
recovers the failure as an inline error placeholder (second
conjunct), but the unguarded clone-of-first construction re-throws and
the build as a whole rejects instead of completing, refuting
"this holds in infinite mode as well, including the construction of
the two clone instances". -/
theorem C7_counterexample :
    buildCards (fun n : ℕ => if n = 0 then some "boom" else none)
        ⟨[0, 1], "infinite"⟩ = Except.error "boom" ∧
      buildSlides (fun n : ℕ => if n = 0 then some "boom" else none) [0, 1] =
        [Slide.errorCard "boom", Slide.card 1] :=
  ⟨rfl, rfl⟩

/-- C7 (amended): failures in the real-card loop are recovered as
inline error placeholders carrying the failure message, construction
continues, and any completed build has exactly one slide per
description in order; a build without infinite mode always completes;
but in infinite mode a failure while constructing the (unguarded)
clone of the last description aborts the whole build with that
error. -/
theorem C7_error_placeholders (α : Type) [Inhabited α]
    (f : α → Option String) (cfg : BuildConfig α) :
    (∀ r, buildCards f cfg = Except.ok r →
      r.cards.length = cfg.cards.length ∧
      ∀ (i : ℕ) (c : α),
        cfg.cards[i]? = some c → r.cards[i]? = some (mkSlide f c)) ∧
    (isInfiniteModeFor cfg cfg.cards.length = false →
      buildCards f cfg =
        Except.ok ⟨buildSlides f cfg.cards, buildSlides f cfg.cards, false⟩) ∧
    (∀ m, isInfiniteModeFor cfg cfg.cards.length = true →
      f (cfg.cards.getLastD default) = some m →
      buildCards f cfg = Except.error m) := by
  have hlen : (buildSlides f cfg.cards).length = cfg.cards.length :=
    List.length_map _ _
  refine ⟨?_, ?_, ?_⟩
  · intro r hr
    have hcards := (buildCards_ok_spec α f cfg r hr).2.1
    have hL := (buildCards_ok_spec α f cfg r hr).2.2.1
    refine ⟨hL, fun i c hc => ?_⟩
    rw [hcards]
    simp [buildSlides, List.getElem?_map, hc]
  · intro hb
    unfold buildCards
    rw [if_neg (by rw [hlen]; simp [hb])]
  · intro m hb hf
    unfold buildCards
    rw [if_pos (by rw [hlen]; exact hb)]
    simp only []
    rw [hf]

/-- Witness for C7 (amended): three descriptions with the middle one
failing yield a completed build whose slide list is
`[card, error placeholder, card]` in description order. -/
theorem C7_error_placeholders_witness :
    buildCards (fun n : ℕ => if n = 1 then some "bad" else none)
        ⟨[0, 1, 2], "none"⟩ =
      Except.ok
        ⟨buildSlides (fun n : ℕ => if n = 1 then some "bad" else none) [0, 1, 2],
         buildSlides (fun n : ℕ => if n = 1 then some "bad" else none) [0, 1, 2],
         false⟩ :=
  (C7_error_placeholders ℕ (fun n : ℕ => if n = 1 then some "bad" else none)
    ⟨[0, 1, 2], "none"⟩).2.1 (by decide)

/-- C6 counterexample: a build run over one description that passes its
first checkpoint and is then superseded (counter reads 2 at the second
checkpoint while the run holds token 1) has already overwritten the
shared slide list — from `[]` to the freshly built `[card 5]` — before
detection, refuting "the superseded build leaves all shared state
unchanged". -/
theorem C6_counterexample :
    (buildCardsRun (fun _ : ℕ => (none : Option String)) ⟨[5], "none"⟩
        ⟨0, false, [], [], false, false⟩ 1 2 2).cards = [Slide.card 5] ∧
    (buildCardsRun (fun _ : ℕ => (none : Option String)) ⟨[5], "none"⟩
        ⟨0, false, [], [], false, false⟩ 1 2 2).buildId = 2 ∧
    (⟨0, false, [], [], false, false⟩ : BuildShared ℕ).buildId + 1 ≠ 2 ∧
    (⟨0, false, [], [], false, false⟩ : BuildShared ℕ).cards = [] ∧
    (buildCardsRun (fun _ : ℕ => (none : Option String)) ⟨[5], "none"⟩
        ⟨0, false, [], [], false, false⟩ 1 2 2).initialized = false := by
  refine ⟨rfl, rfl, by decide, rfl, rfl⟩

/-- C6 (amended): a build superseded before its first checkpoint
changes nothing but the counter, and a build superseded at any later
checkpoint never renders and never sets the initialized flag; but a
build superseded after the first checkpoint may already have mutated
the slide list, infinite-mode flag and display sequence before
detection (see the counterexample), because the mutations between
checkpoints are not individually token-guarded. -/
theorem C6_superseded_no_commit (α : Type) [Inhabited α]
    (f : α → Option String) (cfg : BuildConfig α) (s0 : BuildShared α)
    (o1 o2 o3 : ℕ) (hinit : s0.initialized = false) :
    (s0.buildId + 1 ≠ o1 →
      buildCardsRun f cfg s0 o1 o2 o3 = { s0 with buildId := o1 }) ∧
    ((s0.buildId + 1 ≠ o2 ∨ s0.buildId + 1 ≠ o3) →
      (buildCardsRun f cfg s0 o1 o2 o3).initialized = false ∧
      (buildCardsRun f cfg s0 o1 o2 o3).rendered = s0.rendered) := by
  constructor
  · intro h1
    unfold buildCardsRun
    rw [hinit]
    simp only [Bool.false_eq_true, if_false, if_pos h1]
  · intro h
    unfold buildCardsRun
    rw [hinit]
    simp only [Bool.false_eq_true, if_false]
    by_cases h1 : s0.buildId + 1 ≠ o1
    · rw [if_pos h1]
      exact ⟨rfl, rfl⟩
    · rw [if_neg h1]
      by_cases h2 : s0.buildId + 1 ≠ o2
      · rw [if_pos h2]
        exact ⟨rfl, rfl⟩
      · rw [if_neg h2]
        have h3 : s0.buildId + 1 ≠ o3 := by tauto
        by_cases hb :
            isInfiniteModeFor cfg (buildSlides f cfg.cards).length = true
        · simp only [hb, if_true]
          cases hf1 : f (cfg.cards.getLastD default) with
          | some m => exact ⟨rfl, rfl⟩
          | none =>
            cases hf2 : f (cfg.cards.headD default) with
            | some m => exact ⟨rfl, rfl⟩
            | none => rw [if_pos h3]; exact ⟨rfl, rfl⟩
        · simp only [Bool.not_eq_true] at hb
          simp [hb, Bool.false_eq_true, if_false, if_pos h3]

/-- Witness for C6 (amended): the run of the counterexample is
detected at its second checkpoint and neither renders nor initializes. -/
theorem C6_superseded_no_commit_witness :
    (buildCardsRun (fun _ : ℕ => (none : Option String)) ⟨[5], "none"⟩
        ⟨0, false, [], [], false, false⟩ 1 2 2).initialized = false ∧
    (buildCardsRun (fun _ : ℕ => (none : Option String)) ⟨[5], "none"⟩
        ⟨0, false, [], [], false, false⟩ 1 2 2).rendered =
      (⟨0, false, [], [], false, false⟩ : BuildShared ℕ).rendered :=
  (C6_superseded_no_commit ℕ (fun _ => none) ⟨[5], "none"⟩
    ⟨0, false, [], [], false, false⟩ 1 2 2 rfl).2 (Or.inl (by decide))

/-- C4: inbound external-state updates are (i) a no-op while the user
is actively scrolling, (ii) a no-op when the value is unparsable,
(iii) ignored while they echo the value the widget itself last pushed
within the 2000 ms suppression window, (iv) discarded when the parsed
target is out of range, and (v) — after the window, with the user not
scrolling and the target in range — accepted (triggering programmatic
navigation to the target) exactly when the parsed target differs from
the current realIndex. -/
theorem C4_inbound_gating (e : String) (N : ℕ) (v now : ℤ) (s : SyncState) :
    (s.userScrolling = true →
      syncFromStateEntity (some e) N (some v) now s = none) ∧
    (syncFromStateEntity (some e) N none now s = none) ∧
    (s.lastSyncedValue = some v → now - s.syncedAt < 2000 →
      syncFromStateEntity (some e) N (some v) now s = none) ∧
    (parsedTarget e v < 0 ∨ (N : ℤ) ≤ parsedTarget e v →
      syncFromStateEntity (some e) N (some v) now s = none) ∧
    (s.userScrolling = false → 2000 ≤ now - s.syncedAt →
      0 ≤ parsedTarget e v → parsedTarget e v < (N : ℤ) →
      (syncFromStateEntity (some e) N (some v) now s = some (parsedTarget e v) ↔
        parsedTarget e v ≠ s.realIndex)) := by
  refine ⟨?_, ?_, ?_, ?_, ?_⟩
  · intro hscroll
    simp [syncFromStateEntity, hscroll]
  · simp [syncFromStateEntity]
  · intro hmemo hwin
    unfold syncFromStateEntity
    by_cases hscroll : s.userScrolling = true
    · simp [hscroll]
    · simp only [Bool.not_eq_true] at hscroll
      simp only [hscroll, Bool.false_eq_true, if_false]
      split_ifs with h1 h2 h3
      · rfl
      · rfl
      · rfl
      · exact absurd ⟨hmemo, hwin⟩ h3
  · intro hrange
    unfold syncFromStateEntity
    by_cases hscroll : s.userScrolling = true
    · simp [hscroll]
    · simp only [Bool.not_eq_true] at hscroll
      simp only [hscroll, Bool.false_eq_true, if_false]
      rw [if_pos]
      exact hrange
  · intro hscroll hwin h0 hN
    unfold syncFromStateEntity
    simp only [hscroll, Bool.false_eq_true, if_false]
    rw [if_neg (by omega)]
    constructor
    · intro hacc hEq
      rw [if_pos hEq] at hacc
      exact absurd hacc (by simp)
    · intro hne
      rw [if_neg hne,
        if_neg (by intro hc; exact absurd hc.2 (by omega))]

/-- Witness for C4: with a 1-based binding, three cards, current real
index 0, a stale SyncMemo of value 2 recorded at time 0, an inbound
value 2 arriving at time 2500 (past the window) is accepted and
navigates to real index 1. -/
theorem C4_inbound_gating_witness :
    syncFromStateEntity (some "input_number.page") 3 (some 2) 2500
        ⟨0, false, some 2, 0⟩ =
      some (parsedTarget "input_number.page" 2) :=
  ((C4_inbound_gating "input_number.page" 3 2 2500
      ⟨0, false, some 2, 0⟩).2.2.2.2 rfl (by norm_num) (by decide)
      (by decide)).mpr (by decide)

/-- C5: with a 1-based (`input_number.`) binding, a committed position
pushes `realIndex + 1`, recording the SyncMemo (value and timestamp)
before the service call; the write is skipped entirely when the
external value already equals the target; after the host has applied
the first push, a second commit to the same realIndex pushes nothing;
and with no binding configured the operation is a no-op. -/
theorem C5_outbound_sync (e : String) (hassPresent : Bool)
    (extVal : Option ℤ) (now now2 : ℤ) (s : SyncState)
    (he : isInputNumberEntity e = true) :
    (syncToStateEntity none hassPresent extVal now s = (s, [])) ∧
    (extVal = some (s.realIndex + 1) →
      syncToStateEntity (some e) true extVal now s = (s, [])) ∧
    (extVal ≠ some (s.realIndex + 1) →
      syncToStateEntity (some e) true extVal now s =
        ({ s with lastSyncedValue := some (s.realIndex + 1), syncedAt := now },
          [SyncEffect.record (s.realIndex + 1) now,
           SyncEffect.serviceCall (s.realIndex + 1)])) ∧
    (syncToStateEntity (some e) true
        (some ((syncToStateEntity (some e) true extVal now s).1.realIndex + 1))
        now2 (syncToStateEntity (some e) true extVal now s).1 =
      ((syncToStateEntity (some e) true extVal now s).1, [])) := by
  refine ⟨rfl, ?_, ?_, ?_⟩
  · intro hEq
    simp [syncToStateEntity, he, hEq]
  · intro hne
    simp [syncToStateEntity, he, hne]
  · by_cases hEq : extVal = some (s.realIndex + 1)
    · have h1 : syncToStateEntity (some e) true extVal now s = (s, []) := by
        simp [syncToStateEntity, he, hEq]
      rw [h1]
      simp [syncToStateEntity, he]
    · have h1 : syncToStateEntity (some e) true extVal now s =
          ({ s with lastSyncedValue := some (s.realIndex + 1), syncedAt := now },
            [SyncEffect.record (s.realIndex + 1) now,
             SyncEffect.serviceCall (s.realIndex + 1)]) := by
        simp [syncToStateEntity, he, hEq]
      rw [h1]
      simp [syncToStateEntity, he]

/-- Witness for C5 at realIndex 1 with binding `input_number.page`:
the push is value 2, memo first, then the service call. -/
theorem C5_outbound_sync_witness :
    syncToStateEntity (some "input_number.page") true (some 5) 50
        ⟨1, false, none, 0⟩ =
      (⟨1, false, some 2, 50⟩,
        [SyncEffect.record 2 50, SyncEffect.serviceCall 2]) :=
  (C5_outbound_sync "input_number.page" true (some 5) 50 0
      ⟨1, false, none, 0⟩ rfl).2.2.1 (by decide)

/-- C3: in infinite mode with N real slides, a settle within 0.1
slide-widths of DOM index 0 (the clone of the last slide) jumps and
ends with realIndex = N-1, domIndex = N, snap re-enabled and the jump
flag clear; a settle within 0.1 of DOM index N+1 (the clone of the
first slide) ends with realIndex = 0, domIndex = 1; in both cases the
post-settle side effects (pagination update, outbound sync, timer
restarts) appear in the effect trace after the jump's scroll write and
snap re-enable. -/
theorem C3_clone_jump (cfgReset cfgHide : Bool) (N : ℕ) (w pos : ℚ)
    (s : TrackState) (hN : 2 ≤ N) (hj : s.jumping = false) (hw : 0 < w) :
    (pos / w < 1 / 10 →
      onScrollEnd cfgReset cfgHide true N w s pos =
        ({ s with
            realIndex := (N : ℤ) - 1,
            currentIndex := (N : ℤ),
            jumping := false,
            snapEnabled := true },
          [Effect.disableSnap, Effect.setScroll (N : ℤ), Effect.enableSnap]
            ++ postSettleEffects cfgReset cfgHide)) ∧
    (((N : ℚ) + 1) - 1 / 10 < pos / w →
      onScrollEnd cfgReset cfgHide true N w s pos =
        ({ s with
            realIndex := 0,
            currentIndex := 1,
            jumping := false,
            snapEnabled := true },
          [Effect.disableSnap, Effect.setScroll 1, Effect.enableSnap]
            ++ postSettleEffects cfgReset cfgHide)) := by
  have hN' : (2 : ℚ) ≤ (N : ℚ) := by exact_mod_cast hN
  have hw' : w ≠ 0 := ne_of_gt hw
  constructor
  · intro hlow
    unfold onScrollEnd
    rw [hj]
    simp only [Bool.false_eq_true, if_false, if_neg hw', if_true]
    rw [if_pos hlow]
    rfl
  · intro hhigh
    unfold onScrollEnd
    rw [hj]
    simp only [Bool.false_eq_true, if_false, if_neg hw', if_true]
    have hcast : ((((N : ℤ) + 2) - 1 : ℤ) : ℚ) = (N : ℚ) + 1 := by
      push_cast
      ring
    rw [if_neg (by rw [not_lt]; linarith), if_pos (by rw [hcast]; exact hhigh)]
    rfl

/-- Witness for C3 at N = 3, unit slide width: a settle at offset 0
jumps to realIndex 2, domIndex 3. -/
theorem C3_clone_jump_witness :
    onScrollEnd true true true 3 1 ⟨1, 2, false, true, false⟩ 0 =
      ({ realIndex := (3 : ℤ) - 1, currentIndex := (3 : ℤ),
          jumping := false, snapEnabled := true, userScrolling := false },
        [Effect.disableSnap, Effect.setScroll (3 : ℤ), Effect.enableSnap]
          ++ postSettleEffects true true) :=
  (C3_clone_jump true true 3 1 0 ⟨1, 2, false, true, false⟩
    (by norm_num) rfl (by norm_num)).1 (by norm_num)

/-- C2: the PositionState invariant — realIndex in [0, N-1], domIndex
in [0, len(DisplaySequence)-1], domIndex = realIndex + (infinite ? 1 : 0)
— is re-established by every index-recomputing operation:
unconditionally by programmatic navigation (`_goToRealIndex`, once the
slide width is measurable), by live scroll handling whenever the
rounded DOM position lies in the real-slide band (outside it the
viewport sits on a clone and a clone-jump is pending, the transient
exception the claim allows), and by scroll-end settling at any exact
snap position — clone positions included, where the jump itself
restores the invariant. -/
theorem C2_position_invariant (infinite cfgReset cfgHide : Bool) (N : ℕ)
    (w pos : ℚ) (s : TrackState) (r d : ℤ)
    (hN : 1 ≤ N) (hw : 0 < w) :
    invariantState infinite N (goToRealIndex infinite N w s r) ∧
    (invariantState infinite N s →
      realBand infinite N (jsRound (pos / w)) →
      invariantState infinite N (handleScroll infinite N w s pos)) ∧
    (s.jumping = false → pos / w = (d : ℚ) → 0 ≤ d →
      d ≤ seqLen infinite N - 1 →
      invariantState infinite N
        (onScrollEnd cfgReset cfgHide infinite N w s pos).1) := by
  have hN' : (1 : ℤ) ≤ (N : ℤ) := by exact_mod_cast hN
  refine ⟨?_, ?_, ?_⟩
  · unfold goToRealIndex
    rw [if_neg hw.ne']
    unfold invariantState seqLen clampReal domIndexOf
    cases infinite <;> simp <;> omega
  · intro hinv hband
    unfold handleScroll
    by_cases hj : s.jumping = true
    · rw [if_pos hj]
      exact hinv
    · simp only [Bool.not_eq_true] at hj
      rw [hj]
      simp only [Bool.false_eq_true, if_false, if_pos hw]
      by_cases hchg : realIndexOf infinite N (jsRound (pos / w)) ≠ s.realIndex
      · rw [if_pos hchg]
        unfold realBand at hband
        unfold invariantState seqLen realIndexOf clampReal
        unfold invariantState seqLen at hinv
        cases infinite <;> simp at hband ⊢ <;> omega
      · rw [if_neg hchg]
        exact hinv
  · intro hj hd h0 hle
    unfold onScrollEnd
    rw [hj]
    simp only [Bool.false_eq_true, if_false, if_neg hw.ne']
    rw [hd, jsRound_intCast]
    cases infinite with
    | false =>
      simp only [Bool.false_eq_true, if_false]
      unfold seqLen at hle
      simp only [Bool.false_eq_true, if_false] at hle
      unfold invariantState seqLen
      simp
      omega
    | true =>
      simp only [if_true]
      unfold seqLen at hle
      simp only [if_true] at hle
      have hcast : ((((N : ℤ) + 2) - 1 : ℤ) : ℚ) = (N : ℚ) + 1 := by
        push_cast
        ring
      by_cases hd0 : d = 0
      · subst hd0
        rw [if_pos (by norm_num)]
        unfold jumpToSlide invariantState seqLen
        simp
        omega
      · by_cases hdN : d = (N : ℤ) + 1
        · subst hdN
          rw [if_neg (by
            rw [not_lt]
            have : (1 : ℚ) ≤ ((N : ℤ) + 1 : ℤ) := by exact_mod_cast by omega
            push_cast at this ⊢
            linarith)]
          rw [if_pos (by rw [hcast]; push_cast; norm_num)]
          unfold jumpToSlide invariantState seqLen
          simp
          omega
        · have hd1 : 1 ≤ d := by omega
          have hdN' : d ≤ (N : ℤ) := by omega
          rw [if_neg (by
            rw [not_lt]
            have : (1 : ℚ) ≤ (d : ℚ) := by exact_mod_cast hd1
            linarith)]
          rw [if_neg (by
            rw [hcast, not_lt]
            have : (d : ℚ) ≤ (N : ℚ) := by exact_mod_cast hdN'
            linarith)]
          unfold invariantState seqLen
          simp
          omega

/-- Witness for C2 at infinite mode, N = 3, unit width: a settle at
exact DOM position 2 re-establishes the invariant. -/
theorem C2_position_invariant_witness :
    invariantState true 3
      (onScrollEnd true true true 3 1 ⟨1, 2, false, true, false⟩ 2).1 :=
  (C2_position_invariant true true true 3 1 2 ⟨1, 2, false, true, false⟩ 0 2
    (by norm_num) (by norm_num)).2.2 rfl (by norm_num) (by norm_num)
    (by norm_num [seqLen])

end SwipeCardLite
